import Mathlib

/-!
Shallow embedding of the Monte-Carlo financial goal simulator in
src/app.py.  Python float arithmetic is modelled over ℚ.  The monthly
random draws of np.random.normal(monthly_return, monthly_volatility) are
modelled as an explicit stream d : ℕ → ℕ → ℚ (simulation index, month
index): a normal variable with positive deviation can take any real
value, and np.random.normal(mu, 0) returns exactly mu.
-/

/-- Parameter record of run_monte_carlo_simulation, in the order of the
source signature (src/app.py lines 6-7). -/
structure SimulationConfig where
  initial_capital : ℚ
  monthly_contribution : ℚ
  years : ℕ
  expected_return : ℚ
  volatility : ℚ
  num_simulations : ℕ
  annual_fee : ℚ
  contribution_increase_rate : ℚ
deriving DecidableEq

/-- monthly_return = expected_return / 12 (src/app.py line 11). -/
def monthly_return (cfg : SimulationConfig) : ℚ := cfg.expected_return / 12

/-- num_months = years * 12 (src/app.py line 13). -/
def num_months (cfg : SimulationConfig) : ℕ := cfg.years * 12

/-- Bounds of the sidebar widgets (src/app.py lines 51-66) and of the
spec data model: rates are stored already divided by 100. -/
def SimulationConfig.Valid (cfg : SimulationConfig) : Prop :=
  0 ≤ cfg.initial_capital ∧ 0 ≤ cfg.monthly_contribution ∧
  1 ≤ cfg.years ∧ cfg.years ≤ 50 ∧
  0 ≤ cfg.expected_return ∧ cfg.expected_return ≤ 1/5 ∧
  0 ≤ cfg.volatility ∧ cfg.volatility ≤ 2/5 ∧
  0 ≤ cfg.annual_fee ∧ cfg.annual_fee ≤ 1/20 ∧
  0 ≤ cfg.contribution_increase_rate ∧ cfg.contribution_increase_rate ≤ 1/10 ∧
  cfg.num_simulations ∈ [100, 500, 1000, 5000]

instance : DecidablePred SimulationConfig.Valid := fun cfg => by
  unfold SimulationConfig.Valid; infer_instance

/-- Mutable state of one iteration of the inner loop of
run_monte_carlo_simulation (src/app.py lines 22-24): the running
capital, the current monthly contribution and (recorded only during
simulation index 0) the running invested total. -/
structure LoopState where
  capital : ℚ
  current_monthly_contribution : ℚ
  total_invested : ℚ
deriving DecidableEq

/-- Body of the month loop (src/app.py lines 26-39) for one month, given
that month's random draw r.  Order as in the source: capital grows by
(1 + r), the contribution is added, the invested total is advanced, and
exactly when month+1 is a multiple of 12 the fee factor hits the capital
and the contribution escalates. -/
def month_step (cfg : SimulationConfig) (r : ℚ) (month : ℕ) (s : LoopState) : LoopState :=
  let capital := s.capital * (1 + r) + s.current_monthly_contribution
  let total_invested := s.total_invested + s.current_monthly_contribution
  if (month + 1) % 12 = 0 then
    { capital := capital * (1 - cfg.annual_fee)
      current_monthly_contribution :=
        s.current_monthly_contribution * (1 + cfg.contribution_increase_rate)
      total_invested := total_invested }
  else
    { capital := capital
      current_monthly_contribution := s.current_monthly_contribution
      total_invested := total_invested }

/-- State after m months of one simulation run, with draw stream d. -/
def sim_state (cfg : SimulationConfig) (d : ℕ → ℚ) : ℕ → LoopState
  | 0 =>
    { capital := cfg.initial_capital
      current_monthly_contribution := cfg.monthly_contribution
      total_invested := cfg.initial_capital }
  | m + 1 => month_step cfg (d m) m (sim_state cfg d m)

/-- Capital recorded at path index m (src/app.py line 39; index 0 is the
initial row of line 16). -/
def capital_at (cfg : SimulationConfig) (d : ℕ → ℚ) (m : ℕ) : ℚ :=
  (sim_state cfg d m).capital

/-- The CapitalMatrix all_simulation_paths, rows indexed by month
0..num_months, columns by simulation id (src/app.py lines 15-16, 39). -/
def all_simulation_paths (cfg : SimulationConfig) (d : ℕ → ℕ → ℚ) : List (List ℚ) :=
  (List.range (num_months cfg + 1)).map fun m =>
    (List.range cfg.num_simulations).map fun i => capital_at cfg (d i) m

/-- The InvestedCapitalPath (src/app.py lines 18-19, 31-33): index 0
holds initial_capital; the later entries are written only during
simulation index 0, so they keep the numpy zero fill when
num_simulations = 0. -/
def invested_capital_path (cfg : SimulationConfig) (d : ℕ → ℕ → ℚ) : List ℚ :=
  (List.range (num_months cfg + 1)).map fun m =>
    if m = 0 then cfg.initial_capital
    else if 0 < cfg.num_simulations then (sim_state cfg (d 0) m).total_invested
    else 0

/-- The engine run_monte_carlo_simulation (src/app.py lines 6-41):
returns the capital matrix and the invested-capital path. -/
def run_monte_carlo_simulation (cfg : SimulationConfig) (d : ℕ → ℕ → ℚ) :
    List (List ℚ) × List ℚ :=
  (all_simulation_paths cfg d, invested_capital_path cfg d)

/-- Entry of a matrix stored as a list of rows, with numpy-style
month-major indexing; 0 outside the stored area. -/
def matrixEntry (mat : List (List ℚ)) (m i : ℕ) : ℚ := (mat.getD m []).getD i 0

/-- Entry of a stored path; 0 outside the stored area. -/
def pathEntry (p : List ℚ) (m : ℕ) : ℚ := p.getD m 0

/-- discount_factors[m] = (1 + inflation_rate / 12) ** m
(src/app.py line 81). -/
def discount_factors (inflation_rate : ℚ) (m : ℕ) : ℚ :=
  (1 + inflation_rate / 12) ^ m

/-- Inflation adjustment of the capital matrix (src/app.py lines 79-82):
each month row is divided by that month's discount factor, and nothing
happens when inflation_rate is not positive. -/
def adjustMatrix (inflation_rate : ℚ) (mat : List (List ℚ)) : List (List ℚ) :=
  if 0 < inflation_rate then
    mat.mapIdx fun m row => row.map fun x => x / discount_factors inflation_rate m
  else mat

/-- Inflation adjustment of the invested-capital path
(src/app.py lines 79-83). -/
def adjustPath (inflation_rate : ℚ) (p : List ℚ) : List ℚ :=
  if 0 < inflation_rate then
    p.mapIdx fun m x => x / discount_factors inflation_rate m
  else p

/-- Insertion of one element into a sorted list of rationals. -/
def insertSorted (x : ℚ) : List ℚ → List ℚ
  | [] => [x]
  | y :: ys => if x ≤ y then x :: y :: ys else y :: insertSorted x ys

/-- Sorting, as performed internally by np.median and np.percentile. -/
def sortList : List ℚ → List ℚ
  | [] => []
  | x :: xs => insertSorted x (sortList xs)

/-- np.percentile with the default linear interpolation between order
statistics: the virtual index is h = q * (n - 1) / 100 and the result
interpolates between the order statistics at floor h and floor h + 1
(src/app.py lines 94-95). -/
def percentile (a : List ℚ) (q : ℚ) : ℚ :=
  let s := sortList a
  let n := s.length
  let h : ℚ := q * (n - 1) / 100
  let lo : ℕ := h.floor.toNat
  let x := s.getD lo 0
  let y := s.getD (lo + 1) x
  x + (h - lo) * (y - x)

/-- np.median: middle order statistic, or the mean of the two middle
order statistics for even length (src/app.py line 93). -/
def median (a : List ℚ) : ℚ :=
  let s := sortList a
  let n := s.length
  if n % 2 = 1 then s.getD (n / 2) 0
  else (s.getD (n / 2 - 1) 0 + s.getD (n / 2) 0) / 2

/-- The five reported metrics (src/app.py lines 87-108). -/
structure Metrics where
  median_final : ℚ
  worst_case : ℚ
  best_case : ℚ
  total_invested : ℚ
  last_rate : ℚ
deriving DecidableEq

/-- Statistics pipeline of the app after a simulation run
(src/app.py lines 71-99): optional inflation adjustment, then the final
row of the matrix feeds median / 10th / 90th percentile, the last entry
of the invested path is the invested total, and the last monthly rate is
the undiscounted escalated contribution. -/
def computeMetrics (cfg : SimulationConfig) (inflation_rate : ℚ)
    (d : ℕ → ℕ → ℚ) : Metrics :=
  let simulation_results := adjustMatrix inflation_rate (all_simulation_paths cfg d)
  let invested := adjustPath inflation_rate (invested_capital_path cfg d)
  let final_values := simulation_results.getLastD []
  { median_final := median final_values
    worst_case := percentile final_values 10
    best_case := percentile final_values 90
    total_invested := invested.getLastD 0
    last_rate := cfg.monthly_contribution *
      (1 + cfg.contribution_increase_rate) ^ (cfg.years - 1) }

/-- Raw user-supplied parameter values before validation, rates already
divided by 100 as in the sidebar code. -/
structure RawInput where
  initial_capital : ℚ
  monthly_contribution : ℚ
  years : ℤ
  expected_return : ℚ
  volatility : ℚ
  contribution_increase_rate : ℚ
  inflation_rate : ℚ
  annual_fee : ℚ
  num_simulations : ℤ
deriving DecidableEq

/-- Validation failure naming the offending field and its allowed
range. -/
inductive ConfigError where
  | belowMin (field : String) (lo : ℚ)
  | outOfRange (field : String) (lo hi : ℚ)
  | intOutOfRange (field : String) (lo hi : ℤ)
  | notAllowed (field : String) (allowed : List ℤ)
deriving DecidableEq

/-- Modelled from the spec: the Config Validator component (spec §4.1)
is not a separate function in src/app.py; its bounds live in the sidebar
widget declarations (src/app.py lines 51-66) and their enforcement in
the widget library.  Each field is checked against the bound declared
for its widget, and the first violation is reported with the field name
and the allowed range. -/
def validateConfig (raw : RawInput) : Except ConfigError SimulationConfig :=
  if raw.initial_capital < 0 then
    .error (.belowMin "initial_capital" 0)
  else if raw.monthly_contribution < 0 then
    .error (.belowMin "monthly_contribution" 0)
  else if raw.years < 1 ∨ 50 < raw.years then
    .error (.intOutOfRange "years" 1 50)
  else if raw.expected_return < 0 ∨ 1/5 < raw.expected_return then
    .error (.outOfRange "expected_return" 0 (1/5))
  else if raw.volatility < 0 ∨ 2/5 < raw.volatility then
    .error (.outOfRange "volatility" 0 (2/5))
  else if raw.contribution_increase_rate < 0 ∨ 1/10 < raw.contribution_increase_rate then
    .error (.outOfRange "contribution_increase_rate" 0 (1/10))
  else if raw.inflation_rate < 0 ∨ 3/40 < raw.inflation_rate then
    .error (.outOfRange "inflation_rate" 0 (3/40))
  else if raw.annual_fee < 0 ∨ 1/20 < raw.annual_fee then
    .error (.outOfRange "annual_fee" 0 (1/20))
  else if raw.num_simulations ∈ ([100, 500, 1000, 5000] : List ℤ) then
    .ok { initial_capital := raw.initial_capital
          monthly_contribution := raw.monthly_contribution
          years := raw.years.toNat
          expected_return := raw.expected_return
          volatility := raw.volatility
          num_simulations := raw.num_simulations.toNat
          annual_fee := raw.annual_fee
          contribution_increase_rate := raw.contribution_increase_rate }
  else
    .error (.notAllowed "num_simulations" [100, 500, 1000, 5000])

/-- An error report genuinely describes a violated bound of the raw
input it was produced from. -/
def fieldViolation (raw : RawInput) : ConfigError → Prop
  | .belowMin f lo =>
      (f = "initial_capital" ∧ raw.initial_capital < lo) ∨
      (f = "monthly_contribution" ∧ raw.monthly_contribution < lo)
  | .outOfRange f lo hi =>
      (f = "expected_return" ∧ (raw.expected_return < lo ∨ hi < raw.expected_return)) ∨
      (f = "volatility" ∧ (raw.volatility < lo ∨ hi < raw.volatility)) ∨
      (f = "contribution_increase_rate" ∧
        (raw.contribution_increase_rate < lo ∨ hi < raw.contribution_increase_rate)) ∨
      (f = "inflation_rate" ∧ (raw.inflation_rate < lo ∨ hi < raw.inflation_rate)) ∨
      (f = "annual_fee" ∧ (raw.annual_fee < lo ∨ hi < raw.annual_fee))
  | .intOutOfRange f lo hi =>
      f = "years" ∧ (raw.years < lo ∨ hi < raw.years)
  | .notAllowed f allowed =>
      f = "num_simulations" ∧ ¬ raw.num_simulations ∈ allowed

/-- The app entry point around the engine (src/app.py lines 68-74),
with the validation modelled from the spec in front: the engine runs
only on a successfully validated configuration. -/
def simulateApp (raw : RawInput) (d : ℕ → ℕ → ℚ) :
    Except ConfigError (List (List ℚ) × List ℚ) :=
  match validateConfig raw with
  | .error e => .error e
  | .ok cfg => .ok (run_monte_carlo_simulation cfg d)

/-- Raw inputs rejected by the claim: nonpositive years or simulation
count, simulation count outside the allowed set, negative capital or
contribution, or any rate outside its documented bound. -/
def BadInput (raw : RawInput) : Prop :=
  raw.years ≤ 0 ∨ raw.num_simulations ≤ 0 ∨
  ¬ raw.num_simulations ∈ ([100, 500, 1000, 5000] : List ℤ) ∨
  raw.initial_capital < 0 ∨ raw.monthly_contribution < 0 ∨
  raw.expected_return < 0 ∨ 1/5 < raw.expected_return ∨
  raw.volatility < 0 ∨ 2/5 < raw.volatility ∨
  raw.contribution_increase_rate < 0 ∨ 1/10 < raw.contribution_increase_rate ∨
  raw.inflation_rate < 0 ∨ 3/40 < raw.inflation_rate ∨
  raw.annual_fee < 0 ∨ 1/20 < raw.annual_fee

instance : DecidablePred BadInput := fun raw => by
  unfold BadInput; infer_instance

/-- Constant-zero draw stream, used for concrete instantiations. -/
def zeroDraws : ℕ → ℕ → ℚ := fun _ _ => 0

/-- A draw stream whose first monthly draw is below -1. -/
def crashDraws : ℕ → ℚ := fun m => if m = 0 then -2 else 0

/-- A concrete valid configuration with positive volatility and fee. -/
def cfgCrash : SimulationConfig :=
  { initial_capital := 10000, monthly_contribution := 500, years := 1
    expected_return := 6/100, volatility := 15/100, num_simulations := 100
    annual_fee := 1/100, contribution_increase_rate := 0 }

/-- A concrete valid two-year configuration with contribution
escalation. -/
def cfgTwoYears : SimulationConfig :=
  { initial_capital := 1000, monthly_contribution := 100, years := 2
    expected_return := 7/100, volatility := 15/100, num_simulations := 100
    annual_fee := 1/100, contribution_increase_rate := 1/20 }

/-- The degenerate-volatility configuration of the spec scenario. -/
def cfgFlat : SimulationConfig :=
  { initial_capital := 10000, monthly_contribution := 500, years := 2
    expected_return := 6/100, volatility := 0, num_simulations := 100
    annual_fee := 0, contribution_increase_rate := 0 }

/-- A small configuration for metric evaluation. -/
def cfgSmall : SimulationConfig :=
  { initial_capital := 100, monthly_contribution := 10, years := 1
    expected_return := 0, volatility := 0, num_simulations := 2
    annual_fee := 0, contribution_increase_rate := 0 }

/-- A configuration agreeing with cfgCrash on initial capital, monthly
contribution, years and escalation rate, but with different return,
volatility, fee and simulation count. -/
def cfgAlt : SimulationConfig :=
  { initial_capital := 10000, monthly_contribution := 500, years := 1
    expected_return := 10/100, volatility := 0, num_simulations := 500
    annual_fee := 0, contribution_increase_rate := 0 }

/-- A raw input with an invalid (zero) investment horizon. -/
def rawBad : RawInput :=
  { initial_capital := 10000, monthly_contribution := 500, years := 0
    expected_return := 7/100, volatility := 15/100
    contribution_increase_rate := 0, inflation_rate := 2/100
    annual_fee := 1/100, num_simulations := 1000 }

theorem matrixEntry_paths (cfg : SimulationConfig) (d : ℕ → ℕ → ℚ)
    {m i : ℕ} (hm : m ≤ num_months cfg) (hi : i < cfg.num_simulations) :
    matrixEntry (all_simulation_paths cfg d) m i = capital_at cfg (d i) m := by
  have hm' : m < num_months cfg + 1 := Nat.lt_succ_of_le hm
  simp only [matrixEntry, all_simulation_paths, List.getD_eq_getElem?_getD,
    List.getElem?_map, List.getElem?_range hm', List.getElem?_range hi,
    Option.map_some', Option.getD_some]

theorem pathEntry_invested (cfg : SimulationConfig) (d : ℕ → ℕ → ℚ)
    {m : ℕ} (hm : m ≤ num_months cfg) (hs : 0 < cfg.num_simulations) :
    pathEntry (invested_capital_path cfg d) m = (sim_state cfg (d 0) m).total_invested := by
  have hm' : m < num_months cfg + 1 := Nat.lt_succ_of_le hm
  simp only [pathEntry, invested_capital_path, List.getD_eq_getElem?_getD,
    List.getElem?_map, List.getElem?_range hm', Option.map_some', Option.getD_some]
  rcases Nat.eq_zero_or_pos m with h0 | h0
  · subst h0; simp [sim_state]
  · rw [if_neg (Nat.pos_iff_ne_zero.mp h0), if_pos hs]

theorem total_invested_step (cfg : SimulationConfig) (d : ℕ → ℚ) (m : ℕ) :
    (sim_state cfg d (m + 1)).total_invested =
      (sim_state cfg d m).total_invested +
        (sim_state cfg d m).current_monthly_contribution := by
  show (month_step cfg (d m) m (sim_state cfg d m)).total_invested = _
  unfold month_step
  split <;> rfl

theorem contribution_step (cfg : SimulationConfig) (d : ℕ → ℚ) (m : ℕ) :
    (sim_state cfg d (m + 1)).current_monthly_contribution =
      if (m + 1) % 12 = 0 then
        (sim_state cfg d m).current_monthly_contribution *
          (1 + cfg.contribution_increase_rate)
      else (sim_state cfg d m).current_monthly_contribution := by
  show (month_step cfg (d m) m (sim_state cfg d m)).current_monthly_contribution = _
  unfold month_step
  split <;> simp_all

theorem capital_step (cfg : SimulationConfig) (d : ℕ → ℚ) (m : ℕ) :
    capital_at cfg d (m + 1) =
      (capital_at cfg d m * (1 + d m) +
          (sim_state cfg d m).current_monthly_contribution) *
        (if (m + 1) % 12 = 0 then 1 - cfg.annual_fee else 1) := by
  show (month_step cfg (d m) m (sim_state cfg d m)).capital = _
  unfold month_step capital_at
  split <;> simp_all [mul_comm]

theorem contribution_closed (cfg : SimulationConfig) (d : ℕ → ℚ) (m : ℕ) :
    (sim_state cfg d m).current_monthly_contribution =
      cfg.monthly_contribution * (1 + cfg.contribution_increase_rate) ^ (m / 12) := by
  induction m with
  | zero => simp [sim_state]
  | succ m ih =>
    rw [contribution_step, ih, Nat.succ_div]
    by_cases h : (m + 1) % 12 = 0
    · have hd : 12 ∣ m + 1 := Nat.dvd_iff_mod_eq_zero.mpr h
      rw [if_pos h, if_pos hd, pow_succ]
      ring
    · have hd : ¬ 12 ∣ m + 1 := fun hc => h (Nat.dvd_iff_mod_eq_zero.mp hc)
      rw [if_neg h, if_neg hd, Nat.add_zero]

theorem sim_state_congr (cfg : SimulationConfig) (d₁ d₂ : ℕ → ℚ) (m : ℕ)
    (h : ∀ k < m, d₁ k = d₂ k) : sim_state cfg d₁ m = sim_state cfg d₂ m := by
  induction m with
  | zero => rfl
  | succ m ih =>
    show month_step cfg (d₁ m) m (sim_state cfg d₁ m) =
      month_step cfg (d₂ m) m (sim_state cfg d₂ m)
    rw [h m (Nat.lt_succ_self m), ih fun k hk => h k (Nat.lt_succ_of_lt hk)]

theorem sim_state_contribution_total_inv (cfg₁ cfg₂ : SimulationConfig)
    (d₁ d₂ : ℕ → ℚ) (m : ℕ)
    (hic : cfg₁.initial_capital = cfg₂.initial_capital)
    (hmc : cfg₁.monthly_contribution = cfg₂.monthly_contribution)
    (hcir : cfg₁.contribution_increase_rate = cfg₂.contribution_increase_rate) :
    (sim_state cfg₁ d₁ m).current_monthly_contribution =
      (sim_state cfg₂ d₂ m).current_monthly_contribution ∧
    (sim_state cfg₁ d₁ m).total_invested = (sim_state cfg₂ d₂ m).total_invested := by
  induction m with
  | zero => exact ⟨hmc, hic⟩
  | succ m ih =>
    refine ⟨?_, ?_⟩
    · rw [contribution_step, contribution_step, ih.1, hcir]
    · rw [total_invested_step, total_invested_step, ih.1, ih.2]

theorem total_invested_closed (cfg : SimulationConfig) (d : ℕ → ℚ) (m : ℕ) :
    (sim_state cfg d m).total_invested =
      cfg.initial_capital + ∑ k ∈ Finset.range m,
        cfg.monthly_contribution * (1 + cfg.contribution_increase_rate) ^ (k / 12) := by
  induction m with
  | zero => simp [sim_state]
  | succ m ih =>
    rw [total_invested_step, ih, contribution_closed, Finset.sum_range_succ, add_assoc]

/-- C1: for every valid configuration and every month from 1 to
years*12, the capital matrix entry at index m+1 is obtained from the
entry at index m by growth by that month's draw, addition of the
escalated contribution mc * (1 + cir)^(m/12), and the fee factor exactly
when the completed month count is a multiple of 12; index 0 of every
path holds the initial capital. -/
theorem path_generator_step_spec (cfg : SimulationConfig) (d : ℕ → ℕ → ℚ)
    (_hv : cfg.Valid) :
    (∀ i < cfg.num_simulations,
        matrixEntry (run_monte_carlo_simulation cfg d).1 0 i = cfg.initial_capital) ∧
    ∀ m < num_months cfg, ∀ i < cfg.num_simulations,
      matrixEntry (run_monte_carlo_simulation cfg d).1 (m + 1) i =
        (matrixEntry (run_monte_carlo_simulation cfg d).1 m i * (1 + d i m) +
            cfg.monthly_contribution *
              (1 + cfg.contribution_increase_rate) ^ (m / 12)) *
          (if (m + 1) % 12 = 0 then 1 - cfg.annual_fee else 1) := by
  constructor
  · intro i hi
    rw [show (run_monte_carlo_simulation cfg d).1 = all_simulation_paths cfg d from rfl,
      matrixEntry_paths cfg d (Nat.zero_le _) hi]
    rfl
  · intro m hm i hi
    rw [show (run_monte_carlo_simulation cfg d).1 = all_simulation_paths cfg d from rfl,
      matrixEntry_paths cfg d hm hi, matrixEntry_paths cfg d (le_of_lt hm) hi,
      capital_step, contribution_closed]

/-- Witness for C1 at a concrete configuration and month. -/
theorem path_generator_step_spec_witness :
    matrixEntry (run_monte_carlo_simulation cfgCrash zeroDraws).1 1 0 =
      (matrixEntry (run_monte_carlo_simulation cfgCrash zeroDraws).1 0 0 *
            (1 + zeroDraws 0 0) +
          cfgCrash.monthly_contribution *
            (1 + cfgCrash.contribution_increase_rate) ^ (0 / 12)) *
        (if (0 + 1) % 12 = 0 then 1 - cfgCrash.annual_fee else 1) :=
  (path_generator_step_spec cfgCrash zeroDraws
    (by norm_num [SimulationConfig.Valid, cfgCrash])).2 0 (by decide) 0 (by decide)

/-- C6: the current contribution used by the path generator and the
invested-capital tracker changes only right after completed months that
are exact multiples of 12, and the fee factor hits the capital exactly
at those months; the invested total always advances by the same current
contribution. -/
theorem fee_escalation_only_at_year_boundary (cfg : SimulationConfig)
    (d : ℕ → ℚ) (m : ℕ) :
    ((m + 1) % 12 ≠ 0 →
      (sim_state cfg d (m + 1)).current_monthly_contribution =
          (sim_state cfg d m).current_monthly_contribution ∧
        capital_at cfg d (m + 1) =
          capital_at cfg d m * (1 + d m) +
            (sim_state cfg d m).current_monthly_contribution) ∧
    ((m + 1) % 12 = 0 →
      (sim_state cfg d (m + 1)).current_monthly_contribution =
          (sim_state cfg d m).current_monthly_contribution *
            (1 + cfg.contribution_increase_rate) ∧
        capital_at cfg d (m + 1) =
          (capital_at cfg d m * (1 + d m) +
              (sim_state cfg d m).current_monthly_contribution) *
            (1 - cfg.annual_fee)) ∧
    (sim_state cfg d (m + 1)).total_invested =
      (sim_state cfg d m).total_invested +
        (sim_state cfg d m).current_monthly_contribution := by
  refine ⟨fun h => ⟨?_, ?_⟩, fun h => ⟨?_, ?_⟩, total_invested_step cfg d m⟩
  · rw [contribution_step, if_neg h]
  · rw [capital_step, if_neg h, mul_one]
  · rw [contribution_step, if_pos h]
  · rw [capital_step, if_pos h]

/-- Witness for C6 at the month-12 boundary of a two-year
configuration. -/
theorem fee_escalation_only_at_year_boundary_witness :
    (sim_state cfgTwoYears crashDraws 12).current_monthly_contribution =
        (sim_state cfgTwoYears crashDraws 11).current_monthly_contribution *
          (1 + cfgTwoYears.contribution_increase_rate) ∧
      capital_at cfgTwoYears crashDraws 12 =
        (capital_at cfgTwoYears crashDraws 11 * (1 + crashDraws 11) +
            (sim_state cfgTwoYears crashDraws 11).current_monthly_contribution) *
          (1 - cfgTwoYears.annual_fee) :=
  (fee_escalation_only_at_year_boundary cfgTwoYears crashDraws 11).2.1 (by decide)

/-- C10: the invested-capital path starts at the initial capital and its
entry at month m is the initial capital plus the sum of the first m
escalated monthly contributions. -/
theorem invested_includes_initial_capital (cfg : SimulationConfig)
    (d : ℕ → ℕ → ℚ) (hs : 0 < cfg.num_simulations) :
    pathEntry (run_monte_carlo_simulation cfg d).2 0 = cfg.initial_capital ∧
    ∀ m ≤ num_months cfg,
      pathEntry (run_monte_carlo_simulation cfg d).2 m =
        cfg.initial_capital + ∑ k ∈ Finset.range m,
          cfg.monthly_contribution *
            (1 + cfg.contribution_increase_rate) ^ (k / 12) := by
  constructor
  · rw [show (run_monte_carlo_simulation cfg d).2 = invested_capital_path cfg d from rfl,
      pathEntry_invested cfg d (Nat.zero_le _) hs]
    rfl
  · intro m hm
    rw [show (run_monte_carlo_simulation cfg d).2 = invested_capital_path cfg d from rfl,
      pathEntry_invested cfg d hm hs, total_invested_closed]

/-- Witness for C10 at a concrete configuration. -/
theorem invested_includes_initial_capital_witness :
    pathEntry (run_monte_carlo_simulation cfgSmall zeroDraws).2 0 =
      cfgSmall.initial_capital :=
  (invested_includes_initial_capital cfgSmall zeroDraws (by decide)).1

/-- C3: the invested-capital path is identical for any two parameter
sets agreeing on initial capital, monthly contribution, years and
escalation rate, whatever the return, volatility, fee, simulation count
(both positive) and random draws; and it advances each month by the
current escalated contribution. -/
theorem invested_path_independent (cfg₁ cfg₂ : SimulationConfig)
    (d₁ d₂ : ℕ → ℕ → ℚ)
    (hic : cfg₁.initial_capital = cfg₂.initial_capital)
    (hmc : cfg₁.monthly_contribution = cfg₂.monthly_contribution)
    (hy : cfg₁.years = cfg₂.years)
    (hcir : cfg₁.contribution_increase_rate = cfg₂.contribution_increase_rate)
    (hs₁ : 0 < cfg₁.num_simulations) (hs₂ : 0 < cfg₂.num_simulations) :
    (run_monte_carlo_simulation cfg₁ d₁).2 = (run_monte_carlo_simulation cfg₂ d₂).2 ∧
    ∀ m < num_months cfg₁,
      pathEntry (run_monte_carlo_simulation cfg₁ d₁).2 (m + 1) =
        pathEntry (run_monte_carlo_simulation cfg₁ d₁).2 m +
          cfg₁.monthly_contribution *
            (1 + cfg₁.contribution_increase_rate) ^ (m / 12) := by
  constructor
  · show invested_capital_path cfg₁ d₁ = invested_capital_path cfg₂ d₂
    unfold invested_capital_path
    have hnm : num_months cfg₁ = num_months cfg₂ := by
      unfold num_months; rw [hy]
    rw [hnm]
    apply List.map_congr_left
    intro m _
    by_cases h0 : m = 0
    · simp [h0, hic]
    · simp only [if_neg h0, if_pos hs₁, if_pos hs₂,
        (sim_state_contribution_total_inv cfg₁ cfg₂ (d₁ 0) (d₂ 0) m hic hmc hcir).2]
  · intro m hm
    rw [show (run_monte_carlo_simulation cfg₁ d₁).2 = invested_capital_path cfg₁ d₁ from rfl,
      pathEntry_invested cfg₁ d₁ hm hs₁,
      pathEntry_invested cfg₁ d₁ (le_of_lt hm) hs₁,
      total_invested_step, contribution_closed]

/-- Witness for C3: two configurations differing in return, volatility,
fee and simulation count, with different draw streams, yield the same
invested-capital path. -/
theorem invested_path_independent_witness :
    (run_monte_carlo_simulation cfgCrash zeroDraws).2 =
      (run_monte_carlo_simulation cfgAlt (fun _ _ => 1/10)).2 :=
  (invested_path_independent cfgCrash cfgAlt zeroDraws (fun _ _ => 1/10)
    rfl rfl rfl rfl (by decide) (by decide)).1

/-- C8: the engine is a pure function of the configuration and the
sequence of random draws it consumes: two runs whose draw streams agree
on every simulation index and month actually used return bit-identical
capital matrices and invested paths.  A fixed seed fixes the draw
stream, so two seeded runs coincide. -/
theorem engine_deterministic (cfg : SimulationConfig) (d₁ d₂ : ℕ → ℕ → ℚ)
    (h : ∀ i < cfg.num_simulations, ∀ m < num_months cfg, d₁ i m = d₂ i m) :
    run_monte_carlo_simulation cfg d₁ = run_monte_carlo_simulation cfg d₂ := by
  unfold run_monte_carlo_simulation all_simulation_paths invested_capital_path
  refine congrArg₂ Prod.mk ?_ ?_
  · apply List.map_congr_left
    intro m hmem
    have hm : m ≤ num_months cfg := Nat.lt_succ_iff.mp (List.mem_range.mp hmem)
    apply List.map_congr_left
    intro i himem
    have hi : i < cfg.num_simulations := List.mem_range.mp himem
    unfold capital_at
    rw [sim_state_congr cfg (d₁ i) (d₂ i) m
      (fun k hk => h i hi k (lt_of_lt_of_le hk hm))]
  · apply List.map_congr_left
    intro m hmem
    have hm : m ≤ num_months cfg := Nat.lt_succ_iff.mp (List.mem_range.mp hmem)
    by_cases h0 : m = 0
    · simp [h0]
    · by_cases hs : 0 < cfg.num_simulations
      · simp only [if_neg h0, if_pos hs]
        rw [sim_state_congr cfg (d₁ 0) (d₂ 0) m
          (fun k hk => h 0 hs k (lt_of_lt_of_le hk hm))]
      · simp [if_neg h0, if_neg hs]

/-- Witness for C8: two pointwise-equal draw streams give bit-identical
results on a concrete configuration. -/
theorem engine_deterministic_witness :
    run_monte_carlo_simulation cfgSmall zeroDraws =
      run_monte_carlo_simulation cfgSmall (fun i m => 0 * ((i : ℚ) + m)) :=
  engine_deterministic cfgSmall zeroDraws (fun i m => 0 * ((i : ℚ) + m))
    (fun i _ m _ => by norm_num [zeroDraws])

/-- C9: the path generator imposes no lower bound on capital: on a valid
configuration with positive volatility, a monthly draw below -1 makes
the recorded capital strictly negative, and the negative value is
carried through all remaining growth, contribution and fee steps of the
year with no clamping at zero. -/
theorem capital_not_clamped_below :
    cfgCrash.Valid ∧ 0 < cfgCrash.volatility ∧ crashDraws 0 < -1 ∧
    ∀ m, 1 ≤ m → m ≤ 12 → capital_at cfgCrash crashDraws m < 0 := by
  refine ⟨by norm_num [SimulationConfig.Valid, cfgCrash],
    by norm_num [cfgCrash], by norm_num [crashDraws], ?_⟩
  intro m hm1 hm2
  interval_cases m <;>
    norm_num [capital_at, sim_state, month_step, cfgCrash, crashDraws]

/-- Witness for C9 at the fee month. -/
theorem capital_not_clamped_below_witness :
    capital_at cfgCrash crashDraws 12 < 0 :=
  capital_not_clamped_below.2.2.2 12 (by decide) (by decide)

/-- C5: with zero volatility every draw is exactly the monthly return,
and with zero fee and zero escalation the path is the deterministic
closed form ic * (1+r)^m + mc * sum of (1+r)^k for k < m, where
r = expected_return / 12. -/
theorem degenerate_volatility_closed_form (cfg : SimulationConfig)
    (d : ℕ → ℚ) (hfee : cfg.annual_fee = 0)
    (hcir : cfg.contribution_increase_rate = 0)
    (hd : ∀ m, d m = monthly_return cfg) (m : ℕ) :
    capital_at cfg d m =
      cfg.initial_capital * (1 + monthly_return cfg) ^ m +
        cfg.monthly_contribution *
          ∑ k ∈ Finset.range m, (1 + monthly_return cfg) ^ k := by
  induction m with
  | zero => simp [capital_at, sim_state]
  | succ m ih =>
    rw [capital_step, ih, hd, contribution_closed, hcir, hfee, geom_sum_succ]
    simp only [add_zero, one_pow, mul_one, sub_zero, ite_self]
    ring

/-- Witness for C5 at the configuration of the spec scenario, month 12
and month 24. -/
theorem degenerate_volatility_closed_form_witness :
    (capital_at cfgFlat (fun _ => 1/200) 12 =
      cfgFlat.initial_capital * (1 + monthly_return cfgFlat) ^ 12 +
        cfgFlat.monthly_contribution *
          ∑ k ∈ Finset.range 12, (1 + monthly_return cfgFlat) ^ k) ∧
    capital_at cfgFlat (fun _ => 1/200) 24 =
      cfgFlat.initial_capital * (1 + monthly_return cfgFlat) ^ 24 +
        cfgFlat.monthly_contribution *
          ∑ k ∈ Finset.range 24, (1 + monthly_return cfgFlat) ^ k :=
  ⟨degenerate_volatility_closed_form cfgFlat (fun _ => 1/200)
      (by norm_num [cfgFlat]) (by norm_num [cfgFlat])
      (fun _ => by norm_num [monthly_return, cfgFlat]) 12,
    degenerate_volatility_closed_form cfgFlat (fun _ => 1/200)
      (by norm_num [cfgFlat]) (by norm_num [cfgFlat])
      (fun _ => by norm_num [monthly_return, cfgFlat]) 24⟩

theorem getD_mapIdx_of_default {α β : Type} (l : List α) (f : ℕ → α → β)
    (m : ℕ) (dα : α) (dβ : β) (h : f m dα = dβ) :
    (l.mapIdx f).getD m dβ = f m (l.getD m dα) := by
  by_cases hm : m < l.length
  · have hm' : m < (l.mapIdx f).length := by rw [List.length_mapIdx]; exact hm
    rw [List.getD_eq_getElem?_getD, List.getElem?_eq_getElem hm',
      List.getElem_mapIdx, Option.getD_some, List.getD_eq_getElem?_getD,
      List.getElem?_eq_getElem hm, Option.getD_some]
  · have h1 : l.length ≤ m := le_of_not_lt hm
    have h2 : (l.mapIdx f).length ≤ m := by rw [List.length_mapIdx]; exact h1
    rw [List.getD_eq_getElem?_getD, List.getElem?_eq_none h2, Option.getD_none,
      List.getD_eq_getElem?_getD, List.getElem?_eq_none h1, Option.getD_none, h]

theorem getD_map_of_default {α β : Type} (l : List α) (f : α → β)
    (i : ℕ) (dα : α) (dβ : β) (h : f dα = dβ) :
    (l.map f).getD i dβ = f (l.getD i dα) := by
  by_cases hi : i < l.length
  · have hi' : i < (l.map f).length := by rw [List.length_map]; exact hi
    rw [List.getD_eq_getElem?_getD, List.getElem?_eq_getElem hi',
      List.getElem_map, Option.getD_some, List.getD_eq_getElem?_getD,
      List.getElem?_eq_getElem hi, Option.getD_some]
  · have h1 : l.length ≤ i := le_of_not_lt hi
    have h2 : (l.map f).length ≤ i := by rw [List.length_map]; exact h1
    rw [List.getD_eq_getElem?_getD, List.getElem?_eq_none h2, Option.getD_none,
      List.getD_eq_getElem?_getD, List.getElem?_eq_none h1, Option.getD_none, h]

/-- C2: with positive inflation, every entry of the adjusted matrix and
of the adjusted invested path at month index m is the raw entry divided
by (1 + annual_inflation/12)^m, with the same discount factor on both
structures; with zero inflation both adjustments are the identity. -/
theorem inflation_adjustment_spec (inflation_rate : ℚ)
    (mat : List (List ℚ)) (p : List ℚ) :
    (0 < inflation_rate →
      (∀ m i, matrixEntry (adjustMatrix inflation_rate mat) m i =
          matrixEntry mat m i / discount_factors inflation_rate m) ∧
      ∀ m, pathEntry (adjustPath inflation_rate p) m =
          pathEntry p m / discount_factors inflation_rate m) ∧
    (inflation_rate = 0 →
      adjustMatrix inflation_rate mat = mat ∧ adjustPath inflation_rate p = p) := by
  constructor
  · intro hpos
    constructor
    · intro m i
      unfold adjustMatrix matrixEntry
      rw [if_pos hpos,
        getD_mapIdx_of_default mat (fun m row =>
          row.map fun x => x / discount_factors inflation_rate m) m [] [] rfl,
        getD_map_of_default (mat.getD m []) (fun x => x / discount_factors inflation_rate m)
          i 0 0 (zero_div _)]
    · intro m
      unfold adjustPath pathEntry
      rw [if_pos hpos,
        getD_mapIdx_of_default p (fun m x => x / discount_factors inflation_rate m)
          m 0 0 (zero_div _)]
  · intro h0
    constructor
    · unfold adjustMatrix
      rw [if_neg (by rw [h0]; exact lt_irrefl 0)]
    · unfold adjustPath
      rw [if_neg (by rw [h0]; exact lt_irrefl 0)]

/-- Witness for C2 on concrete data. -/
theorem inflation_adjustment_spec_witness :
    matrixEntry (adjustMatrix (1/50) [[2], [4]]) 1 0 =
      matrixEntry [[2], [4]] 1 0 / discount_factors (1/50) 1 :=
  ((inflation_adjustment_spec (1/50) [[2], [4]] [3, 6]).1 (by norm_num)).1 1 0

theorem getLastD_eq_getD {α : Type} (l : List α) (d : α) :
    l.getLastD d = l.getD (l.length - 1) d := by
  rw [List.getLastD_eq_getLast?, List.getLast?_eq_getElem?, List.getD_eq_getElem?_getD]

theorem length_all_simulation_paths (cfg : SimulationConfig) (d : ℕ → ℕ → ℚ) :
    (all_simulation_paths cfg d).length = num_months cfg + 1 := by
  unfold all_simulation_paths
  rw [List.length_map, List.length_range]

theorem length_invested_capital_path (cfg : SimulationConfig) (d : ℕ → ℕ → ℚ) :
    (invested_capital_path cfg d).length = num_months cfg + 1 := by
  unfold invested_capital_path
  rw [List.length_map, List.length_range]

theorem final_row_raw (cfg : SimulationConfig) (d : ℕ → ℕ → ℚ) :
    (all_simulation_paths cfg d).getD (num_months cfg) [] =
      (List.range cfg.num_simulations).map fun i =>
        capital_at cfg (d i) (num_months cfg) := by
  unfold all_simulation_paths
  rw [List.getD_eq_getElem?_getD, List.getElem?_map,
    List.getElem?_range (Nat.lt_succ_self _), Option.map_some', Option.getD_some]

/-- C4: the metrics are the median and the 10th and 90th percentiles,
with linear interpolation, of the (possibly inflation-adjusted)
final-month row of the capital matrix; the invested total is the last
entry of the (possibly adjusted) invested path; the last monthly rate is
monthly_contribution * (1 + contribution_increase_rate)^(years - 1),
undiscounted for every inflation rate. -/
theorem statistics_summarizer_spec (cfg : SimulationConfig)
    (inflation_rate : ℚ) (d : ℕ → ℕ → ℚ) (hs : 0 < cfg.num_simulations) :
    computeMetrics cfg inflation_rate d =
      { median_final := median ((List.range cfg.num_simulations).map fun i =>
          capital_at cfg (d i) (num_months cfg) /
            (if 0 < inflation_rate then
              discount_factors inflation_rate (num_months cfg) else 1))
        worst_case := percentile ((List.range cfg.num_simulations).map fun i =>
          capital_at cfg (d i) (num_months cfg) /
            (if 0 < inflation_rate then
              discount_factors inflation_rate (num_months cfg) else 1)) 10
        best_case := percentile ((List.range cfg.num_simulations).map fun i =>
          capital_at cfg (d i) (num_months cfg) /
            (if 0 < inflation_rate then
              discount_factors inflation_rate (num_months cfg) else 1)) 90
        total_invested := (sim_state cfg (d 0) (num_months cfg)).total_invested /
          (if 0 < inflation_rate then
            discount_factors inflation_rate (num_months cfg) else 1)
        last_rate := cfg.monthly_contribution *
          (1 + cfg.contribution_increase_rate) ^ (cfg.years - 1) } := by
  have hinv_raw : (invested_capital_path cfg d).getD (num_months cfg) 0 =
      (sim_state cfg (d 0) (num_months cfg)).total_invested :=
    pathEntry_invested cfg d (le_refl _) hs
  have hfinal : (adjustMatrix inflation_rate (all_simulation_paths cfg d)).getLastD [] =
      (List.range cfg.num_simulations).map fun i =>
        capital_at cfg (d i) (num_months cfg) /
          (if 0 < inflation_rate then
            discount_factors inflation_rate (num_months cfg) else 1) := by
    by_cases hpos : 0 < inflation_rate
    · rw [getLastD_eq_getD]
      unfold adjustMatrix
      rw [if_pos hpos, List.length_mapIdx, length_all_simulation_paths]
      simp only [Nat.add_sub_cancel]
      rw [getD_mapIdx_of_default _ _ _ [] [] rfl, final_row_raw, List.map_map]
      simp only [if_pos hpos]
      rfl
    · rw [getLastD_eq_getD]
      unfold adjustMatrix
      rw [if_neg hpos, length_all_simulation_paths]
      simp only [Nat.add_sub_cancel]
      rw [final_row_raw]
      simp only [if_neg hpos, div_one]
  have hinvfinal : (adjustPath inflation_rate (invested_capital_path cfg d)).getLastD 0 =
      (sim_state cfg (d 0) (num_months cfg)).total_invested /
        (if 0 < inflation_rate then
          discount_factors inflation_rate (num_months cfg) else 1) := by
    by_cases hpos : 0 < inflation_rate
    · rw [getLastD_eq_getD]
      unfold adjustPath
      rw [if_pos hpos, List.length_mapIdx, length_invested_capital_path]
      simp only [Nat.add_sub_cancel]
      rw [getD_mapIdx_of_default (invested_capital_path cfg d)
        (fun m x => x / discount_factors inflation_rate m)
        (num_months cfg) 0 0 (zero_div _), hinv_raw]
      simp only [if_pos hpos]
    · rw [getLastD_eq_getD]
      unfold adjustPath
      rw [if_neg hpos, length_invested_capital_path]
      simp only [Nat.add_sub_cancel]
      rw [hinv_raw]
      simp only [if_neg hpos, div_one]
  simp only [computeMetrics]
  rw [hfinal, hinvfinal]

/-- Witness for C4 on a concrete configuration with zero inflation. -/
theorem statistics_summarizer_spec_witness :
    computeMetrics cfgSmall 0 zeroDraws =
      { median_final := median ((List.range cfgSmall.num_simulations).map fun i =>
          capital_at cfgSmall (zeroDraws i) (num_months cfgSmall) /
            (if (0:ℚ) < 0 then discount_factors 0 (num_months cfgSmall) else 1))
        worst_case := percentile ((List.range cfgSmall.num_simulations).map fun i =>
          capital_at cfgSmall (zeroDraws i) (num_months cfgSmall) /
            (if (0:ℚ) < 0 then discount_factors 0 (num_months cfgSmall) else 1)) 10
        best_case := percentile ((List.range cfgSmall.num_simulations).map fun i =>
          capital_at cfgSmall (zeroDraws i) (num_months cfgSmall) /
            (if (0:ℚ) < 0 then discount_factors 0 (num_months cfgSmall) else 1)) 90
        total_invested :=
          (sim_state cfgSmall (zeroDraws 0) (num_months cfgSmall)).total_invested /
            (if (0:ℚ) < 0 then discount_factors 0 (num_months cfgSmall) else 1)
        last_rate := cfgSmall.monthly_contribution *
          (1 + cfgSmall.contribution_increase_rate) ^ (cfgSmall.years - 1) } :=
  statistics_summarizer_spec cfgSmall 0 zeroDraws (by decide)

/-- C7: every raw input violating a documented bound is rejected with a
validation failure that names a genuinely violated field and its allowed
range, and the app produces that failure instead of running any
simulation. -/
theorem validator_rejects_bad_input (raw : RawInput) (d : ℕ → ℕ → ℚ)
    (hbad : BadInput raw) :
    ∃ e, validateConfig raw = .error e ∧ fieldViolation raw e ∧
      simulateApp raw d = .error e := by
  have hval : ∃ e, validateConfig raw = .error e ∧ fieldViolation raw e := by
    unfold validateConfig
    split_ifs with h1 h2 h3 h4 h5 h6 h7 h8 h9
    · exact ⟨_, rfl, Or.inl ⟨rfl, h1⟩⟩
    · exact ⟨_, rfl, Or.inr ⟨rfl, h2⟩⟩
    · exact ⟨_, rfl, ⟨rfl, h3⟩⟩
    · exact ⟨_, rfl, Or.inl ⟨rfl, h4⟩⟩
    · exact ⟨_, rfl, Or.inr (Or.inl ⟨rfl, h5⟩)⟩
    · exact ⟨_, rfl, Or.inr (Or.inr (Or.inl ⟨rfl, h6⟩))⟩
    · exact ⟨_, rfl, Or.inr (Or.inr (Or.inr (Or.inl ⟨rfl, h7⟩)))⟩
    · exact ⟨_, rfl, Or.inr (Or.inr (Or.inr (Or.inr ⟨rfl, h8⟩)))⟩
    · exfalso
      have hmem' := h9
      simp only [List.mem_cons, List.mem_singleton, List.not_mem_nil, or_false]
        at hmem'
      rcases hbad with h | h | h | h | h | h | h | h | h | h | h | h | h | h | h
      · exact h3 (Or.inl (by omega))
      · rcases hmem' with e | e | e | e <;> omega
      · exact h h9
      · exact h1 h
      · exact h2 h
      · exact h4 (Or.inl h)
      · exact h4 (Or.inr h)
      · exact h5 (Or.inl h)
      · exact h5 (Or.inr h)
      · exact h6 (Or.inl h)
      · exact h6 (Or.inr h)
      · exact h7 (Or.inl h)
      · exact h7 (Or.inr h)
      · exact h8 (Or.inl h)
      · exact h8 (Or.inr h)
    · exact ⟨_, rfl, ⟨rfl, h9⟩⟩
  rcases hval with ⟨e, he, hv⟩
  refine ⟨e, he, hv, ?_⟩
  unfold simulateApp
  rw [he]

/-- Witness for C7: a raw input with a zero investment horizon is
rejected before any simulation. -/
theorem validator_rejects_bad_input_witness :
    ∃ e, validateConfig rawBad = .error e ∧ fieldViolation rawBad e ∧
      simulateApp rawBad zeroDraws = .error e :=
  validator_rejects_bad_input rawBad zeroDraws (Or.inl (by norm_num [rawBad]))
